import Mathlib

/-!
Verification of the task decomposition and multi-step execution orchestrator
of the locus backend (src/backend/app/services/task_planner.py and the
streaming coordinator in src/backend/app/services/agent.py), as a shallow
embedding in Lean 4.

Strings are modelled by Lean `String` (a list of characters); Python string
operations (`in`, `.lower()`, slicing, the three `re` patterns the fallback
planner uses) are embedded as executable functions on character lists.
Python dicts that the code only reads and writes by key are modelled as
association lists.  The two external capabilities (the Gemini LLM call used
by the planner, and the tool-calling agent run used by the coordinator) are
modelled as explicit inputs: the planner takes the parsed JSON the LLM would
return (`Option`, `none` = no key / LLM failure, both of which fall back to
the keyword path), and the coordinator takes the agent outcome as an
`Except` (an exception or an output plus the intermediate tool-call trace).
-/

/-! ## Python string primitives -/

/-- Python `str.lower()` restricted to the ASCII range the repository's data uses. -/
def pyLower (s : String) : String := String.mk (s.toList.map Char.toLower)

/-- Python `str.upper()` restricted to the ASCII range the repository's data uses. -/
def pyUpper (s : String) : String := String.mk (s.toList.map Char.toUpper)

/-- Python slicing `s[:n]` on a string. -/
def strTake (s : String) (n : Nat) : String := String.mk (s.toList.take n)

/-- Does `needle` occur as a contiguous run inside `hay`?  (Python `needle in hay`.) -/
def infixAt (needle : List Char) : List Char → Bool
  | [] => needle.isEmpty
  | c :: rest => needle.isPrefixOf (c :: rest) || infixAt needle rest

/-- Python substring test `needle in hay` on strings. -/
def containsSub (needle hay : String) : Bool := infixAt needle.toList hay.toList

/-- A character of Python's regex class `\w` (ASCII range). -/
def isWordChar (c : Char) : Bool := c.isAlphanum || c == '_'

/-- Python `re.search(r"#(\w+)", s)`: leftmost `#` followed by at least one word
character; the captured group is the maximal word-character run after it.
`\w+` is greedy and nothing follows the group, so no backtracking arises. -/
def findHashChannel : List Char → Option (List Char)
  | [] => none
  | c :: rest =>
    if c == '#' then
      let w := rest.takeWhile isWordChar
      if w.isEmpty then findHashChannel rest else some w
    else findHashChannel rest

/-- A character of the class `[\w.+-]` (local part of the email pattern). -/
def isLocalChar (c : Char) : Bool := isWordChar c || c == '.' || c == '+' || c == '-'

/-- A character of the class `[\w-]` (domain part of the email pattern). -/
def isDomChar (c : Char) : Bool := isWordChar c || c == '-'

/-- A character of the class `[\w.-]` (tail part of the email pattern). -/
def isTldChar (c : Char) : Bool := isWordChar c || c == '.' || c == '-'

/-- Try `[\w.+-]+@[\w-]+\.[\w.-]+` anchored at the head of `cs`.  Each
separator (`@`, `.`) is outside the character class that precedes it, so the
greedy maximal-run reading coincides with Python's backtracking one. -/
def emailAt (cs : List Char) : Option (List Char) :=
  let loc := cs.takeWhile isLocalChar
  if loc.isEmpty then none else
  match cs.drop loc.length with
  | '@' :: rest1 =>
    let dom := rest1.takeWhile isDomChar
    if dom.isEmpty then none else
    match rest1.drop dom.length with
    | '.' :: rest2 =>
      let tld := rest2.takeWhile isTldChar
      if tld.isEmpty then none else some (loc ++ '@' :: (dom ++ '.' :: tld))
    | _ => none
  | _ => none

/-- Python `re.search(r"[\w.+-]+@[\w-]+\.[\w.-]+", s)`: leftmost match. -/
def findEmail : List Char → Option (List Char)
  | [] => none
  | c :: rest =>
    match emailAt (c :: rest) with
    | some e => some e
    | none => findEmail rest

/-- Try `project\s+(\w+)` anchored at the head of `cs`; yields the group. -/
def projectKeyAt (cs : List Char) : Option (List Char) :=
  if "project".toList.isPrefixOf cs then
    let rest := cs.drop 7
    let sp := rest.takeWhile fun c => c.isWhitespace
    if sp.isEmpty then none else
    let w := (rest.drop sp.length).takeWhile isWordChar
    if w.isEmpty then none else some w
  else none

/-- Python `re.search(r"project\s+(\w+)", s)`: leftmost match, captured group. -/
def findProjectKey : List Char → Option (List Char)
  | [] => none
  | c :: rest =>
    match projectKeyAt (c :: rest) with
    | some w => some w
    | none => findProjectKey rest

/-- Assignment `d[k] = v` on a Python dict modelled as an association list: replace the
value at the first occurrence of `k`, or append the new pair. -/
def dictSet (d : List (String × String)) (k v : String) : List (String × String) :=
  match d with
  | [] => [(k, v)]
  | p :: rest => if p.1 = k then (k, v) :: rest else p :: dictSet rest k v

/-! ## Data model (task_planner.py) -/

/-- The `class TaskStatus(str, Enum)` of task_planner.py. -/
inductive TaskStatus where
  | pending
  | in_progress
  | completed
  | failed
deriving DecidableEq, Repr

/-- The `.value` string of each `TaskStatus` member. -/
def TaskStatus.value : TaskStatus → String
  | .pending => "pending"
  | .in_progress => "in_progress"
  | .completed => "completed"
  | .failed => "failed"

/-- The `@dataclass PlannedTask` of task_planner.py.  `parameters` is a Python
dict of extracted arguments; the repository only stores and forwards it, so
it is modelled as an association list of strings. -/
structure PlannedTask where
  id : String
  service : String
  action : String
  description : String
  tool_name : String
  parameters : List (String × String)
  status : TaskStatus
  result : Option String
  error : Option String
  depends_on : List String
deriving DecidableEq, Repr

/-- The `@dataclass TaskPlan` of task_planner.py. -/
structure TaskPlan where
  tasks : List PlannedTask
  total : Nat
  completed : Nat
  failed : Nat
  current_task_id : Option String
  task_results : List (String × String)
deriving DecidableEq, Repr

/-- A fresh `TaskPlan()` with the dataclass field defaults. -/
def TaskPlan.empty : TaskPlan :=
  { tasks := [], total := 0, completed := 0, failed := 0,
    current_task_id := none, task_results := [] }

/-- The dictionary `PlannedTask.to_dict` returns, with its exact keys
(`"task_id"` for the id, `status.value` for the status). -/
structure TaskDict where
  task_id : String
  service : String
  action : String
  description : String
  tool_name : String
  parameters : List (String × String)
  status : String
  result : Option String
  error : Option String
  depends_on : List String
deriving DecidableEq, Repr

/-- Method `PlannedTask.to_dict` of task_planner.py. -/
def PlannedTask.to_dict (t : PlannedTask) : TaskDict :=
  { task_id := t.id, service := t.service, action := t.action,
    description := t.description, tool_name := t.tool_name,
    parameters := t.parameters, status := t.status.value,
    result := t.result, error := t.error, depends_on := t.depends_on }

/-- Method `TaskPlan.get_pending_tasks` of task_planner.py. -/
def TaskPlan.get_pending_tasks (plan : TaskPlan) : List PlannedTask :=
  plan.tasks.filter fun t => decide (t.status = TaskStatus.pending)

/-- The `deps_satisfied` check inside `TaskPlan.get_next_task`: every id in
`t.depends_on` names some task of `tasks` whose status is completed. -/
def depsSatisfied (tasks : List PlannedTask) (t : PlannedTask) : Bool :=
  t.depends_on.all fun dep_id =>
    tasks.any fun u => decide (u.id = dep_id ∧ u.status = TaskStatus.completed)

/-- Method `TaskPlan.get_next_task`: first task in plan order that is pending and
whose dependencies are all satisfied (the source loop `continue`s past
non-pending tasks and returns the first task passing the check). -/
def TaskPlan.get_next_task (plan : TaskPlan) : Option PlannedTask :=
  plan.tasks.find? fun t =>
    decide (t.status = TaskStatus.pending) && depsSatisfied plan.tasks t

/-- Python truthiness of an `Optional[str]`: `None` and `""` are falsy. -/
def optTruthy : Option String → Bool
  | none => false
  | some s => !s.isEmpty

/-- The loop of `TaskPlan.update_task_status` over the task list: rewrite the
first task whose id matches (`result`/`error` only assigned when truthy,
matching the `if result:` / `if error:` guards) and report whether a match
was found (the loop `break`s at the first match). -/
def updateTasksGo (task_id : String) (status : TaskStatus)
    (result error : Option String) : List PlannedTask → List PlannedTask × Bool
  | [] => ([], false)
  | t :: ts =>
    if t.id = task_id then
      ({ t with
          status := status
          result := if optTruthy result then result else t.result
          error := if optTruthy error then error else t.error } :: ts, true)
    else
      let r := updateTasksGo task_id status result error ts
      (t :: r.1, r.2)

/-- Method `TaskPlan.update_task_status`: mutate the first task with the given id;
when a match exists also record the truthy result in `task_results` and
update the aggregate counters / `current_task_id` according to the new
status.  When no task matches, the loop falls through and nothing changes. -/
def TaskPlan.update_task_status (plan : TaskPlan) (task_id : String)
    (status : TaskStatus) (result error : Option String) : TaskPlan :=
  let r := updateTasksGo task_id status result error plan.tasks
  if r.2 then
    { plan with
      tasks := r.1,
      task_results := if optTruthy result then
          dictSet plan.task_results task_id (result.getD "") else plan.task_results,
      completed := if status = TaskStatus.completed then plan.completed + 1 else plan.completed,
      failed := if status = TaskStatus.failed then plan.failed + 1 else plan.failed,
      current_task_id := if status = TaskStatus.in_progress then
          some task_id else plan.current_task_id }
  else
    { plan with tasks := r.1 }

/-! ## Service/tool lookup table (task_planner.py SERVICE_TOOL_MAP) -/

/-- The `SERVICE_TOOL_MAP` table of task_planner.py. -/
def SERVICE_TOOL_MAP : List (String × List (String × String)) :=
  [ ("slack",
     [("send_message", "slack_send_message"),
      ("post_update", "slack_post_update"),
      ("list_channels", "slack_list_channels")]),
    ("jira",
     [("create_issue", "jira_create_issue"),
      ("create_bug", "jira_create_issue"),
      ("search", "jira_search_issues"),
      ("add_comment", "jira_add_comment")]),
    ("calendar",
     [("create_event", "calendar_create_event"),
      ("create_meeting", "calendar_create_event"),
      ("update_event", "calendar_update_event"),
      ("delete_event", "calendar_delete_event")]),
    ("gmail",
     [("send_email", "gmail_send_email"),
      ("read_emails", "gmail_read_latest_emails")]),
    ("notion",
     [("search", "notion_search"),
      ("create_page", "notion_create_page"),
      ("append_content", "notion_append_content"),
      ("get_page", "notion_get_page")]),
    ("docs",
     [("create_document", "docs_create_document"),
      ("append_content", "docs_append_content")]),
    ("sheets",
     [("create_spreadsheet", "sheets_create_spreadsheet"),
      ("add_rows", "sheets_add_rows")]),
    ("bugasura",
     [("create_issue", "bugasura_create_issue"),
      ("list_issues", "bugasura_list_issues")]),
    ("github",
     [("list_repos", "github_list_repos"),
      ("get_repo", "github_get_repo"),
      ("create_repo", "github_create_repo"),
      ("list_issues", "github_list_issues"),
      ("create_issue", "github_create_issue"),
      ("update_issue", "github_update_issue"),
      ("add_comment", "github_add_issue_comment"),
      ("list_prs", "github_list_prs"),
      ("create_pr", "github_create_pr"),
      ("merge_pr", "github_merge_pr")]),
    ("linear",
     [("list_teams", "linear_list_teams"),
      ("list_issues", "linear_list_issues"),
      ("get_issue", "linear_get_issue"),
      ("create_issue", "linear_create_issue"),
      ("update_issue", "linear_update_issue"),
      ("add_comment", "linear_add_comment"),
      ("list_states", "linear_list_states")]) ]

/-- Lookup `SERVICE_TOOL_MAP.get(service, {}).get(action, f"{service}_{action}")`. -/
def toolNameFor (service action : String) : String :=
  match (SERVICE_TOOL_MAP.lookup service).bind fun m => m.lookup action with
  | some name => name
  | none => service ++ "_" ++ action

/-! ## Task Planner (task_planner.py) -/

/-- One element of the JSON array the planning LLM returns, after the
`task_data.get(key, default)` reads with constant defaults are folded in
(a missing `"service"` is the empty string, and so on).  Only the id's
default depends on the plan built so far, so the id stays optional. -/
structure TaskData where
  id : Option String
  service : String
  action : String
  description : String
  parameters : List (String × String)
  depends_on : List String
deriving DecidableEq, Repr

/-- The conversion loop of `parse_tasks_from_message` (lines 284 to 307):
lower-case the service and action, skip entries whose service is not in
`available_services`, map the pair through the lookup table and append a
pending `PlannedTask`; the id defaults to `task_{len(plan.tasks)+1}`. -/
def llmLoop (available_services : List String) :
    List TaskData → List PlannedTask → List PlannedTask
  | [], acc => acc
  | td :: rest, acc =>
    let service := pyLower td.service
    let action := pyLower td.action
    if service ∈ available_services then
      let task : PlannedTask :=
        { id := td.id.getD ("task_" ++ toString (acc.length + 1))
          service := service
          action := action
          description := td.description
          tool_name := toolNameFor service action
          parameters := td.parameters
          status := TaskStatus.pending
          result := none
          error := none
          depends_on := td.depends_on }
      llmLoop available_services rest (acc ++ [task])
    else
      llmLoop available_services rest acc

/-- The LLM branch of `parse_tasks_from_message` applied to the parsed JSON
array: build the task list, then set `plan.total = len(plan.tasks)`. -/
def parseTasksFromLLMData (tasksData : List TaskData)
    (available_services : List String) : TaskPlan :=
  let tasks := llmLoop available_services tasksData []
  { TaskPlan.empty with tasks := tasks, total := tasks.length }

/-- The slack task `_fallback_parse_tasks` appends: channel from the first
`#(\w+)` match when the message contains `#`, else `"general"`. -/
def slackTask (message : String) (n : Nat) : PlannedTask :=
  let channel :=
    if containsSub "#" message then
      match findHashChannel message.toList with
      | some w => String.mk w
      | none => "general"
    else "general"
  { id := "task_" ++ toString n
    service := "slack"
    action := "send_message"
    description := "Send message to #" ++ channel
    tool_name := "slack_send_message"
    parameters := [("channel", channel)]
    status := TaskStatus.pending
    result := none
    error := none
    depends_on := [] }

/-- The calendar task `_fallback_parse_tasks` appends. -/
def calendarTask (n : Nat) : PlannedTask :=
  { id := "task_" ++ toString n
    service := "calendar"
    action := "create_event"
    description := "Create calendar event"
    tool_name := "calendar_create_event"
    parameters := []
    status := TaskStatus.pending
    result := none
    error := none
    depends_on := [] }

/-- The gmail task `_fallback_parse_tasks` appends: recipient from the first
email-shaped substring (else empty), depending on every calendar task
already in the plan when one exists. -/
def gmailTask (message : String) (n : Nat) (deps : List String) : PlannedTask :=
  let to_email :=
    match findEmail message.toList with
    | some e => String.mk e
    | none => ""
  { id := "task_" ++ toString n
    service := "gmail"
    action := "send_email"
    description := "Send email to " ++ to_email
    tool_name := "gmail_send_email"
    parameters := [("to", to_email)]
    status := TaskStatus.pending
    result := none
    error := none
    depends_on := deps }

/-- The jira task `_fallback_parse_tasks` appends: project key from
`project\s+(\w+)` over the lower-cased message, upper-cased, else `"PROJ"`. -/
def jiraTask (message_lower : String) (n : Nat) : PlannedTask :=
  let project_key :=
    match findProjectKey message_lower.toList with
    | some w => pyUpper (String.mk w)
    | none => "PROJ"
  { id := "task_" ++ toString n
    service := "jira"
    action := "create_issue"
    description := "Create Jira issue in " ++ project_key
    tool_name := "jira_create_issue"
    parameters := [("project_key", project_key)]
    status := TaskStatus.pending
    result := none
    error := none
    depends_on := [] }

/-- The notion task `_fallback_parse_tasks` appends, depending on every
task already in the plan. -/
def notionTask (n : Nat) (deps : List String) : PlannedTask :=
  { id := "task_" ++ toString n
    service := "notion"
    action := "append_content"
    description := "Summarize actions in Notion"
    tool_name := "notion_append_content"
    parameters := []
    status := TaskStatus.pending
    result := none
    error := none
    depends_on := deps }

/-- Slack detection of `_fallback_parse_tasks` (the task counter equals the
number of tasks appended so far, so each new id is `task_{length+1}`). -/
def fallbackStage1 (message : String) (available_services : List String) :
    List PlannedTask :=
  let ml := pyLower message
  if "slack" ∈ available_services ∧
      (["slack", "post", "channel"].any fun k => containsSub k ml) then
    [slackTask message 1]
  else []

/-- Calendar detection of `_fallback_parse_tasks`. -/
def fallbackStage2 (message : String) (available_services : List String) :
    List PlannedTask :=
  let ts := fallbackStage1 message available_services
  let ml := pyLower message
  if "calendar" ∈ available_services ∧
      (["meeting", "calendar", "schedule", "event"].any fun k => containsSub k ml) then
    ts ++ [calendarTask (ts.length + 1)]
  else ts

/-- Gmail detection of `_fallback_parse_tasks`, with the calendar-dependency
heuristic (`depends_on` lists every calendar task already in the plan). -/
def fallbackStage3 (message : String) (available_services : List String) :
    List PlannedTask :=
  let ts := fallbackStage2 message available_services
  let ml := pyLower message
  if "gmail" ∈ available_services ∧
      (["email", "mail", "send mail"].any fun k => containsSub k ml) then
    let deps :=
      if ts.any fun t => decide (t.service = "calendar") then
        (ts.filter fun t => decide (t.service = "calendar")).map fun t => t.id
      else []
    ts ++ [gmailTask message (ts.length + 1) deps]
  else ts

/-- Jira detection of `_fallback_parse_tasks`. -/
def fallbackStage4 (message : String) (available_services : List String) :
    List PlannedTask :=
  let ts := fallbackStage3 message available_services
  let ml := pyLower message
  if "jira" ∈ available_services ∧
      (["jira", "ticket", "issue", "bug"].any fun k => containsSub k ml) then
    ts ++ [jiraTask ml (ts.length + 1)]
  else ts

/-- Notion detection of `_fallback_parse_tasks` (`depends_on` is the id of
every task already in the plan). -/
def fallbackStage5 (message : String) (available_services : List String) :
    List PlannedTask :=
  let ts := fallbackStage4 message available_services
  let ml := pyLower message
  if "notion" ∈ available_services ∧
      (["notion", "summarize", "summary", "document"].any fun k => containsSub k ml) then
    ts ++ [notionTask (ts.length + 1) (ts.map fun t => t.id)]
  else ts

/-- Function `_fallback_parse_tasks` of task_planner.py: the five keyword detectors
in source order, then `plan.total = len(plan.tasks)`. -/
def fallback_parse_tasks (message : String)
    (available_services : List String) : TaskPlan :=
  let ts := fallbackStage5 message available_services
  { TaskPlan.empty with tasks := ts, total := ts.length }

/-- Function `parse_tasks_from_message` of task_planner.py with the LLM call made
explicit: `llmData = some d` is the primary path returning the parsed JSON
array `d`; `llmData = none` covers the missing `GOOGLE_API_KEY` and the
`except` clause around the LLM call, both of which run the keyword
fallback. -/
def parse_tasks_from_message (message : String)
    (available_services : List String)
    (llmData : Option (List TaskData)) : TaskPlan :=
  match llmData with
  | some d => parseTasksFromLLMData d available_services
  | none => fallback_parse_tasks message available_services

/-! ## Streaming Execution Coordinator (agent.py) -/

/-- Function `determine_service` of agent.py: keyword dispatch over the lower-cased
tool name, in source order. -/
def determine_service (tool_name : String) : String :=
  let tool_lower := pyLower tool_name
  if containsSub "jira" tool_lower then "jira"
  else if containsSub "gmail" tool_lower || containsSub "email" tool_lower then "gmail"
  else if containsSub "calendar" tool_lower || containsSub "event" tool_lower then "calendar"
  else if containsSub "slack" tool_lower then "slack"
  else if containsSub "notion" tool_lower then "notion"
  else if containsSub "bugasura" tool_lower then "bugasura"
  else if containsSub "docs" tool_lower || containsSub "document" tool_lower then "docs"
  else if containsSub "sheets" tool_lower || containsSub "spreadsheet" tool_lower then "sheets"
  else if containsSub "slides" tool_lower || containsSub "presentation" tool_lower then "slides"
  else if containsSub "drive" tool_lower || containsSub "file" tool_lower then "drive"
  else if containsSub "forms" tool_lower || containsSub "form" tool_lower then "forms"
  else if containsSub "meet" tool_lower || containsSub "meeting" tool_lower then "meet"
  else if containsSub "github" tool_lower then "github"
  else if containsSub "linear" tool_lower then "linear"
  else "unknown"

/-- The success heuristic of `process_chat_message_streaming` (line 688):
`observation and "error" not in str(observation).lower()[:50]`.  An empty
observation is falsy, hence classified as a failure too. -/
def is_success (observation : String) : Bool :=
  !observation.isEmpty && !containsSub "error" (strTake (pyLower observation) 50)

/-- Schema `ActionResult` of app/schemas.py (the result payload kept as a string). -/
structure ActionResult where
  service : String
  action : String
  success : Bool
  result : Option String
  error : Option String
deriving DecidableEq, Repr

/-- One entry of the agent run's `intermediate_steps` trace: the invoked
tool's name (`action.tool`) and the observation text the tool returned. -/
structure AgentStep where
  tool : String
  observation : String
deriving DecidableEq, Repr

/-- What a successful `agent.invoke` returns: the final `output` text and
the `intermediate_steps` trace. -/
structure AgentOutcome where
  output : String
  steps : List AgentStep
deriving DecidableEq, Repr

/-- The typed progress events `process_chat_message_streaming` yields.  The
`complete` event of the empty-plan path carries no task counters, so the
counters are optional. -/
inductive Event where
  | planning (status : String)
  | plan (snapshot : TaskPlan)
  | task_started (task_id service action description : String)
  | task_completed (task_id service action result : String)
  | task_failed (task_id service action error : String)
  | complete (message : String) (actions_taken : List ActionResult)
      (total_tasks completed_tasks failed_tasks : Option Nat)
  | error (message : String)
deriving DecidableEq, Repr

/-- Is the event one of `task_started` / `task_completed` / `task_failed`? -/
def isTaskEvent : Event → Bool
  | .task_started _ _ _ _ => true
  | .task_completed _ _ _ _ => true
  | .task_failed _ _ _ _ => true
  | _ => false

/-- Is the event `complete` or `error`? -/
def isTerminalEvent : Event → Bool
  | .complete _ _ _ _ _ => true
  | .error _ => true
  | _ => false

/-- The loop state of the step-processing loop of
`process_chat_message_streaming`: the mutated plan, the accumulated
`actions_taken` and `completed_tasks`, and the events yielded so far. -/
structure ExecState where
  plan : TaskPlan
  actions_taken : List ActionResult
  completed_tasks : List (String × String)
  events : List Event
deriving DecidableEq, Repr

/-- One iteration of the trace loop (agent.py lines 660 to 728), for the
step at index `i`: find the first still-pending planned task whose
`tool_name` equals the invoked tool, yield `task_started` (under the
matched id, or the synthesized `task_{i+1}`), classify the observation with
the heuristic, update the plan only when a task matched, yield
`task_completed` or `task_failed` (result/error truncated to 500
characters), and append the `ActionResult`. -/
def process_step (i : Nat) (st : ExecState) (step : AgentStep) : ExecState :=
  let tool_name := step.tool
  let observation := step.observation
  let service := determine_service tool_name
  let matching_task := st.plan.tasks.find? fun t =>
    decide (t.tool_name = tool_name ∧ t.status = TaskStatus.pending)
  let task_id :=
    match matching_task with
    | some t => t.id
    | none => "task_" ++ toString (i + 1)
  let description :=
    match matching_task with
    | some t => t.description
    | none => tool_name
  let started := Event.task_started task_id service tool_name description
  if is_success observation then
    { plan :=
        match matching_task with
        | some _ => st.plan.update_task_status task_id TaskStatus.completed (some observation) none
        | none => st.plan
      actions_taken := st.actions_taken ++
        [{ service := service, action := tool_name, success := true,
           result := some observation, error := none }]
      completed_tasks := dictSet st.completed_tasks task_id observation
      events := st.events ++
        [started, Event.task_completed task_id service tool_name (strTake observation 500)] }
  else
    { plan :=
        match matching_task with
        | some _ => st.plan.update_task_status task_id TaskStatus.failed none (some observation)
        | none => st.plan
      actions_taken := st.actions_taken ++
        [{ service := service, action := tool_name, success := false,
           result := none, error := some observation }]
      completed_tasks := st.completed_tasks
      events := st.events ++
        [started, Event.task_failed task_id service tool_name (strTake observation 500)] }

/-- The whole `for i, step in enumerate(intermediate_steps)` loop, entered
with index `i`. -/
def process_steps (i : Nat) (st : ExecState) : List AgentStep → ExecState
  | [] => st
  | s :: rest => process_steps (i + 1) (process_step i st s) rest

/-- Function `process_chat_message_streaming` of agent.py as the list of events it
yields.  External effects are explicit inputs: `has_tools` is whether
`build_tools` produced any tool, `has_api_key` whether a Gemini key is
configured, `llmData` the planner LLM's parsed output (see
`parse_tasks_from_message`), `single_shot` the outcome of the fallback
`process_chat_message` call (final text and its `actions_taken`), and
`agent_run` the outcome of the combined `agent.invoke` turn. -/
def process_chat_message_streaming
    (has_tools has_api_key : Bool)
    (message : String) (available_services : List String)
    (llmData : Option (List TaskData))
    (single_shot : Except String (String × List ActionResult))
    (agent_run : Except String AgentOutcome) : List Event :=
  if !has_tools then
    [Event.error "No integration tools available. Please connect at least one service."]
  else if !has_api_key then
    [Event.error "No Gemini API key configured. Please add your Gemini API key in Settings."]
  else
    let task_plan := parse_tasks_from_message message available_services llmData
    if task_plan.tasks.isEmpty then
      [Event.planning "Analyzing your request...",
       Event.planning "Processing with AI agent..."] ++
      match single_shot with
      | .ok res => [Event.complete res.1 res.2 none none none]
      | .error e => [Event.error e]
    else
      [Event.planning "Analyzing your request...", Event.plan task_plan] ++
      match agent_run with
      | .error e => [Event.error ("Error processing request: " ++ e)]
      | .ok outcome =>
        let st := process_steps 0
          { plan := task_plan, actions_taken := [], completed_tasks := [], events := [] }
          outcome.steps
        st.events ++
          [Event.complete outcome.output st.actions_taken
            (some st.plan.total) (some st.plan.completed) (some st.plan.failed)]

/-! ## Definitions the individual claims need -/

/-- Forward-closedness of the dependency edges: walking the task list with
the ids seen so far, every id in a task's `depends_on` was the id of an
earlier task.  This strict before-ordering rules out dependency cycles. -/
def depsClosedB (seen : List String) : List PlannedTask → Bool
  | [] => true
  | t :: rest =>
    (t.depends_on.all fun d => decide (d ∈ seen)) && depsClosedB (seen ++ [t.id]) rest

/-- Modelled from the spec: the inverse of `PlannedTask.to_dict` is absent
from src/ (section 8 states the round-trip over the public dictionary form
without naming a parser), so the status-string decoding follows the spec's
words: each `status.value` string maps back to its `TaskStatus` member. -/
def status_from_value (s : String) : Option TaskStatus :=
  if s = "pending" then some TaskStatus.pending
  else if s = "in_progress" then some TaskStatus.in_progress
  else if s = "completed" then some TaskStatus.completed
  else if s = "failed" then some TaskStatus.failed
  else none

/-- Modelled from the spec: parse the public dictionary form back into a
`PlannedTask`, reading exactly the keys `to_dict` emits (section 8's
round-trip property); fails only on an unknown status string. -/
def planned_task_from_dict (d : TaskDict) : Option PlannedTask :=
  (status_from_value d.status).map fun st =>
    { id := d.task_id
      service := d.service
      action := d.action
      description := d.description
      tool_name := d.tool_name
      parameters := d.parameters
      status := st
      result := d.result
      error := d.error
      depends_on := d.depends_on }

/-- The single-quote character, written by code point. -/
def squote : String := String.mk [Char.ofNat 39]

/-- The section-8 scenario message
`Post 'Build complete' to #dev-updates on Slack`, its quotes spelled via
their code point. -/
def c8_message : String :=
  "Post " ++ squote ++ "Build complete" ++ squote ++ " to #dev-updates on Slack"

/-- A one-element LLM answer whose task cites its own id in `depends_on`:
the conversion loop of `parse_tasks_from_message` copies `depends_on`
verbatim, so the resulting plan carries a dependency cycle. -/
def selfDepTaskData : List TaskData :=
  [{ id := some "task_1"
     service := "slack"
     action := "send_message"
     description := "Post an update"
     parameters := []
     depends_on := ["task_1"] }]

/-- The ordering contract of the event stream (claim C3): the stream ends
in a terminal (`complete` or `error`) event, no terminal event occurs
before the last position, and every `task_*` event is preceded by a `plan`
event. -/
def StreamOrdered (evts : List Event) : Prop :=
  (∃ e, evts.getLast? = some e ∧ isTerminalEvent e = true) ∧
  (∀ e ∈ evts.dropLast, isTerminalEvent e = false) ∧
  (∀ l1 e l2, evts = l1 ++ e :: l2 → isTaskEvent e = true →
    ∃ p, Event.plan p ∈ l1)

/-! ## Helper lemmas -/

theorem toList_mk (l : List Char) : (String.mk l).toList = l := rfl

/-- The function `infixAt` decides the contiguous-substring relation. -/
theorem infixAt_iff (needle hay : List Char) :
    infixAt needle hay = true ↔ needle <:+: hay := by
  induction hay with
  | nil =>
    simp only [infixAt, List.isEmpty_iff]
    constructor
    · rintro rfl; exact List.infix_refl []
    · intro h; exact List.eq_nil_of_infix_nil h
  | cons c rest ih =>
    simp only [infixAt, Bool.or_eq_true, List.isPrefixOf_iff_prefix, ih,
      List.infix_cons_iff]

/-- The function `containsSub` decides Python's substring test. -/
theorem containsSub_iff (needle hay : String) :
    containsSub needle hay = true ↔ needle.toList <:+: hay.toList :=
  infixAt_iff needle.toList hay.toList

/-! ## Claim C2 -/

/-- Claim C2 (counterexample): the claim asserts the tool result string
"Operation completed without error." is classified as success, but that
string has only 34 characters, so "error" (at index 28) lies within the
leading 50 characters of its lower-cased form and the coordinator's
heuristic classifies the entry as failed. -/
theorem C2_counterexample_short_error_string :
    is_success "Operation completed without error." = false := by decide

/-- Claim C2 (amended): a matched trace entry is classified as failed
exactly when the tool's returned text is empty (Python falsiness of the
observation) or the substring "error" occurs, case-insensitively, within
its leading 50 characters; in particular "Operation completed without
error." and "Error: bad request" are both classified as failure, while a
50-character error-free prefix followed by "error" is classified as
success. -/
theorem C2_failure_heuristic_amended :
    (∀ observation : String,
      is_success observation = false ↔
        observation = "" ∨
          "error".toList <:+: (observation.toList.map Char.toLower).take 50) ∧
    is_success "Error: bad request" = false ∧
    is_success (String.mk (List.replicate 50 'a') ++ "error") = true := by
  refine ⟨fun observation => ?_, by decide, by decide⟩
  have hu : is_success observation =
      (!observation.isEmpty &&
        !infixAt "error".toList ((observation.toList.map Char.toLower).take 50)) := rfl
  rw [hu, Bool.and_eq_false_iff]
  simp only [Bool.not_eq_false, Bool.not_eq_false', String.isEmpty_iff observation,
    infixAt_iff]

/-! ## Claim C8 -/

/-- Claim C8 (counterexample): for the scenario message with only slack
connected, the single planned task's parameters bind the channel to "dev",
not "dev-updates": the extraction pattern `#(\w+)` stops at the hyphen,
since `-` is not a word character. -/
theorem C8_counterexample_channel_is_dev :
    ((fallback_parse_tasks c8_message ["slack"]).tasks.map fun t => t.parameters) =
      [[("channel", "dev")]] := by decide

/-- Claim C8 (amended): for the message `Post 'Build complete' to
#dev-updates on Slack` with slack as the only available service, the
fallback planner produces exactly one task, with service "slack", action
"send_message", and parameters binding the channel to "dev" (the `#(\w+)`
extraction stops at the hyphen of `#dev-updates`). -/
theorem C8_fallback_slack_scenario :
    (fallback_parse_tasks c8_message ["slack"]).tasks =
      [{ id := "task_1"
         service := "slack"
         action := "send_message"
         description := "Send message to #dev"
         tool_name := "slack_send_message"
         parameters := [("channel", "dev")]
         status := TaskStatus.pending
         result := none
         error := none
         depends_on := [] }] := by decide

/-! ## Claim C9 -/

/-- Claim C9: serializing a `PlannedTask` with `to_dict` and parsing the
dictionary back yields a task with the same id, service, action, status
and depends_on as the original (the parsing direction is modelled from the
spec, see `planned_task_from_dict`). -/
theorem C9_to_dict_roundtrip (t : PlannedTask) :
    ∃ t2, planned_task_from_dict t.to_dict = some t2 ∧
      t2.id = t.id ∧ t2.service = t.service ∧ t2.action = t.action ∧
      t2.status = t.status ∧ t2.depends_on = t.depends_on := by
  refine ⟨t, ?_, rfl, rfl, rfl, rfl, rfl⟩
  cases t with
  | mk id service action description tool_name parameters status result error depends_on =>
    cases status <;> rfl

/-! ## Claim C10 -/

/-- The update loop of `update_task_status` leaves the task list untouched
and reports no match when no task carries the requested id. -/
theorem updateTasksGo_of_absent (task_id : String) (status : TaskStatus)
    (result error : Option String) (ts : List PlannedTask)
    (h : ∀ t ∈ ts, t.id ≠ task_id) :
    updateTasksGo task_id status result error ts = (ts, false) := by
  induction ts with
  | nil => rfl
  | cons t ts ih =>
    rw [updateTasksGo, if_neg (h t (by simp)), ih fun u hu => h u (by simp [hu])]

/-- Claim C10: calling `update_task_status` with a task id that occurs
nowhere in the plan leaves the plan entirely unchanged: no task is
modified and `completed`, `failed`, `current_task_id` and `task_results`
keep their prior values. -/
theorem C10_update_status_absent_id (plan : TaskPlan) (task_id : String)
    (status : TaskStatus) (result error : Option String)
    (h : ∀ t ∈ plan.tasks, t.id ≠ task_id) :
    plan.update_task_status task_id status result error = plan := by
  unfold TaskPlan.update_task_status
  rw [updateTasksGo_of_absent task_id status result error plan.tasks h]
  rfl

/-- Claim C10 (witness): a concrete plan holding only the task `task_1` is
unchanged by an update aimed at the absent id `task_9`. -/
theorem C10_update_status_absent_id_witness :
    TaskPlan.update_task_status
      { tasks := [calendarTask 1], total := 1, completed := 0, failed := 0,
        current_task_id := none, task_results := [] }
      "task_9" TaskStatus.completed (some "done") none =
      { tasks := [calendarTask 1], total := 1, completed := 0, failed := 0,
        current_task_id := none, task_results := [] } :=
  C10_update_status_absent_id _ "task_9" TaskStatus.completed (some "done") none
    (by decide)

/-! ## Claim C4 -/

/-- Claim C4: `get_next_task` returns a task only if that task is in the
plan, is pending, and every id in its `depends_on` names a completed task
of the plan; and when no pending task has all its dependencies completed
(each pending task has some dependency with no completed carrier), it
returns `none`. -/
theorem C4_get_next_task_dependency_rule (plan : TaskPlan) :
    (∀ t, plan.get_next_task = some t →
      t ∈ plan.tasks ∧ t.status = TaskStatus.pending ∧
        ∀ d ∈ t.depends_on, ∃ u ∈ plan.tasks,
          u.id = d ∧ u.status = TaskStatus.completed) ∧
    ((∀ t ∈ plan.tasks, t.status = TaskStatus.pending →
        ∃ d ∈ t.depends_on, ∀ u ∈ plan.tasks,
          u.id = d → u.status ≠ TaskStatus.completed) →
      plan.get_next_task = none) := by
  constructor
  · intro t ht
    have hmem := List.mem_of_find?_eq_some ht
    have hp := List.find?_some ht
    simp only [Bool.and_eq_true, decide_eq_true_eq, depsSatisfied,
      List.all_eq_true, List.any_eq_true] at hp
    exact ⟨hmem, hp.1, fun d hd => hp.2 d hd⟩
  · intro h
    rw [TaskPlan.get_next_task, List.find?_eq_none]
    intro t ht
    simp only [Bool.and_eq_true, decide_eq_true_eq, depsSatisfied,
      List.all_eq_true, List.any_eq_true, not_and]
    intro hpend hall
    obtain ⟨d, hd, hnone⟩ := h t ht hpend
    obtain ⟨u, hu, hud, hustat⟩ := hall d hd
    exact hnone u hu hud hustat

/-! ## Claim C7 -/

/-- Claim C7: a trace entry whose tool matches no still-pending planned
task leaves the `TaskPlan` (in particular its total, completed and failed
counters) unchanged, and still yields `task_started` followed by
`task_completed` or `task_failed` under the synthesized id `task_{i+1}`,
with the tool name standing in for the description. -/
theorem C7_unmatched_trace_entry (i : Nat) (st : ExecState) (step : AgentStep)
    (h : (st.plan.tasks.find? fun t =>
        decide (t.tool_name = step.tool ∧ t.status = TaskStatus.pending)) = none) :
    (process_step i st step).plan = st.plan ∧
    ((process_step i st step).events =
        st.events ++
          [Event.task_started ("task_" ++ toString (i + 1))
            (determine_service step.tool) step.tool step.tool,
           Event.task_completed ("task_" ++ toString (i + 1))
            (determine_service step.tool) step.tool (strTake step.observation 500)] ∨
      (process_step i st step).events =
        st.events ++
          [Event.task_started ("task_" ++ toString (i + 1))
            (determine_service step.tool) step.tool step.tool,
           Event.task_failed ("task_" ++ toString (i + 1))
            (determine_service step.tool) step.tool (strTake step.observation 500)]) := by
  simp only [process_step]
  rw [h]
  by_cases hs : is_success step.observation
  · rw [if_pos hs]
    exact ⟨rfl, Or.inl rfl⟩
  · rw [if_neg hs]
    exact ⟨rfl, Or.inr rfl⟩

/-- Claim C7 (witness): concrete unmatched entry over the empty plan. -/
theorem C7_unmatched_trace_entry_witness :
    (process_step 0
      { plan := TaskPlan.empty, actions_taken := [], completed_tasks := [],
        events := [] }
      { tool := "slack_send_message", observation := "ok" }).plan = TaskPlan.empty :=
  (C7_unmatched_trace_entry 0
    { plan := TaskPlan.empty, actions_taken := [], completed_tasks := [], events := [] }
    { tool := "slack_send_message", observation := "ok" } rfl).1

/-! ## Claim C1 -/

/-- Every task the LLM-path conversion loop accumulates has an available
service: the loop filters on `service not in available_services`. -/
theorem llmLoop_service_mem (avail : List String) (tds : List TaskData)
    (acc : List PlannedTask) (hacc : ∀ t ∈ acc, t.service ∈ avail) :
    ∀ t ∈ llmLoop avail tds acc, t.service ∈ avail := by
  induction tds generalizing acc with
  | nil => simpa [llmLoop] using hacc
  | cons td rest ih =>
    simp only [llmLoop]
    split
    · next hmem =>
      apply ih
      intro t ht
      rcases List.mem_append.mp ht with h1 | h1
      · exact hacc t h1
      · simp only [List.mem_singleton] at h1
        subst h1
        exact hmem
    · exact ih acc hacc

/-- Slack detection only fires when slack is available. -/
theorem fallbackStage1_service (m : String) (a : List String) :
    ∀ t ∈ fallbackStage1 m a, t.service ∈ a := by
  simp only [fallbackStage1]
  split
  · next hcond =>
    intro t ht
    simp only [List.mem_singleton] at ht
    subst ht
    exact hcond.1
  · simp

/-- Calendar detection preserves service availability. -/
theorem fallbackStage2_service (m : String) (a : List String) :
    ∀ t ∈ fallbackStage2 m a, t.service ∈ a := by
  simp only [fallbackStage2]
  split
  · next hcond =>
    intro t ht
    rcases List.mem_append.mp ht with h1 | h1
    · exact fallbackStage1_service m a t h1
    · simp only [List.mem_singleton] at h1
      subst h1
      exact hcond.1
  · exact fallbackStage1_service m a

/-- Gmail detection preserves service availability. -/
theorem fallbackStage3_service (m : String) (a : List String) :
    ∀ t ∈ fallbackStage3 m a, t.service ∈ a := by
  simp only [fallbackStage3]
  split
  · next hcond =>
    intro t ht
    rcases List.mem_append.mp ht with h1 | h1
    · exact fallbackStage2_service m a t h1
    · simp only [List.mem_singleton] at h1
      subst h1
      exact hcond.1
  · exact fallbackStage2_service m a

/-- Jira detection preserves service availability. -/
theorem fallbackStage4_service (m : String) (a : List String) :
    ∀ t ∈ fallbackStage4 m a, t.service ∈ a := by
  simp only [fallbackStage4]
  split
  · next hcond =>
    intro t ht
    rcases List.mem_append.mp ht with h1 | h1
    · exact fallbackStage3_service m a t h1
    · simp only [List.mem_singleton] at h1
      subst h1
      exact hcond.1
  · exact fallbackStage3_service m a

/-- Notion detection preserves service availability. -/
theorem fallbackStage5_service (m : String) (a : List String) :
    ∀ t ∈ fallbackStage5 m a, t.service ∈ a := by
  simp only [fallbackStage5]
  split
  · next hcond =>
    intro t ht
    rcases List.mem_append.mp ht with h1 | h1
    · exact fallbackStage4_service m a t h1
    · simp only [List.mem_singleton] at h1
      subst h1
      exact hcond.1
  · exact fallbackStage4_service m a

/-- Claim C1: every task of the plan `parse_tasks_from_message` returns
(through the LLM path or the keyword fallback path) targets a service the
user has connected: no task references a service outside
`available_services`. -/
theorem C1_planned_services_available (message : String)
    (available_services : List String) (llmData : Option (List TaskData)) :
    ∀ t ∈ (parse_tasks_from_message message available_services llmData).tasks,
      t.service ∈ available_services := by
  cases llmData with
  | none => exact fallbackStage5_service message available_services
  | some d => exact llmLoop_service_mem available_services d [] (by simp)

/-- Claim C1 (witness): the slack task planned from the section-8 scenario
message targets the single connected service. -/
theorem C1_planned_services_available_witness :
    (slackTask c8_message 1).service ∈ ["slack"] :=
  C1_planned_services_available c8_message ["slack"] none
    (slackTask c8_message 1) (by decide)

/-! ## Claim C6 -/

/-- Appending a task whose dependencies all name already-present ids (or
ids in `seen`) preserves forward-closedness. -/
theorem depsClosedB_append (nt : PlannedTask) (ts : List PlannedTask)
    (seen : List String) (h1 : depsClosedB seen ts = true)
    (h2 : ∀ d ∈ nt.depends_on, d ∈ seen ++ ts.map fun t => t.id) :
    depsClosedB seen (ts ++ [nt]) = true := by
  induction ts generalizing seen with
  | nil =>
    simp only [List.nil_append, depsClosedB, Bool.and_eq_true, List.all_eq_true,
      decide_eq_true_eq]
    refine ⟨fun d hd => ?_, trivial⟩
    simpa using h2 d hd
  | cons t rest ih =>
    simp only [List.cons_append, depsClosedB, Bool.and_eq_true] at h1 ⊢
    refine ⟨h1.1, ?_⟩
    apply ih _ h1.2
    intro d hd
    have hmem := h2 d hd
    simp only [List.map_cons, List.append_assoc] at hmem ⊢
    simpa [List.cons_append] using hmem

/-- The slack stage produces forward-closed dependencies. -/
theorem fallbackStage1_depsClosed (m : String) (a : List String) :
    depsClosedB [] (fallbackStage1 m a) = true := by
  simp only [fallbackStage1]
  split <;> rfl

/-- The calendar stage preserves forward-closedness. -/
theorem fallbackStage2_depsClosed (m : String) (a : List String) :
    depsClosedB [] (fallbackStage2 m a) = true := by
  simp only [fallbackStage2]
  split
  · exact depsClosedB_append _ _ _ (fallbackStage1_depsClosed m a) (by simp [calendarTask])
  · exact fallbackStage1_depsClosed m a

/-- The gmail stage preserves forward-closedness: its dependency list only
cites ids of calendar tasks already in the plan. -/
theorem fallbackStage3_depsClosed (m : String) (a : List String) :
    depsClosedB [] (fallbackStage2 m a ++
      [gmailTask m ((fallbackStage2 m a).length + 1)
        (if (fallbackStage2 m a).any fun t => decide (t.service = "calendar") then
          ((fallbackStage2 m a).filter fun t => decide (t.service = "calendar")).map
            fun t => t.id
        else [])]) = true := by
  apply depsClosedB_append _ _ _ (fallbackStage2_depsClosed m a)
  intro d hd
  simp only [gmailTask] at hd
  split at hd
  · simp only [List.mem_map, List.mem_filter] at hd
    obtain ⟨u, ⟨hu, _⟩, rfl⟩ := hd
    simp only [List.nil_append, List.mem_map]
    exact ⟨u, hu, rfl⟩
  · simp at hd

/-- The gmail stage keeps the whole plan forward-closed. -/
theorem fallbackStage3_depsClosed_full (m : String) (a : List String) :
    depsClosedB [] (fallbackStage3 m a) = true := by
  simp only [fallbackStage3]
  split
  · exact fallbackStage3_depsClosed m a
  · exact fallbackStage2_depsClosed m a

/-- The jira stage preserves forward-closedness. -/
theorem fallbackStage4_depsClosed (m : String) (a : List String) :
    depsClosedB [] (fallbackStage4 m a) = true := by
  simp only [fallbackStage4]
  split
  · exact depsClosedB_append _ _ _ (fallbackStage3_depsClosed_full m a)
      (by simp [jiraTask])
  · exact fallbackStage3_depsClosed_full m a

/-- The notion stage preserves forward-closedness: its dependency list is
exactly the ids of the tasks already in the plan. -/
theorem fallbackStage5_depsClosed (m : String) (a : List String) :
    depsClosedB [] (fallbackStage5 m a) = true := by
  simp only [fallbackStage5]
  split
  · apply depsClosedB_append _ _ _ (fallbackStage4_depsClosed m a)
    intro d hd
    simpa [notionTask] using hd
  · exact fallbackStage4_depsClosed m a

/-- Claim C6 (counterexample): the LLM path copies `depends_on` verbatim
from the model output, so a response whose single task lists its own id
yields a plan whose dependency relation is cyclic and references no
earlier task; the claimed invariant fails over the LLM path. -/
theorem C6_counterexample_llm_self_dependency :
    depsClosedB [] (parse_tasks_from_message "" ["slack"] (some selfDepTaskData)).tasks
        = false ∧
      ∃ t ∈ (parse_tasks_from_message "" ["slack"] (some selfDepTaskData)).tasks,
        t.id ∈ t.depends_on := by decide

/-- Claim C6 (amended): in every `TaskPlan` produced by the fallback
keyword path, each task's `depends_on` references only ids of tasks that
appear strictly earlier in the same plan (walking the list, every cited id
was already seen), which rules out cycles; the LLM path performs no such
validation and inherits whatever `depends_on` the model returns. -/
theorem C6_fallback_deps_reference_earlier_tasks (message : String)
    (available_services : List String) :
    depsClosedB [] (fallback_parse_tasks message available_services).tasks = true :=
  fallbackStage5_depsClosed message available_services

/-! ## Claim C3 -/

/-- A task event is not terminal. -/
theorem not_terminal_of_taskEvent (e : Event) (h : isTaskEvent e = true) :
    isTerminalEvent e = false := by
  cases e <;> simp_all [isTaskEvent, isTerminalEvent]

/-- A terminal event is not a task event. -/
theorem not_taskEvent_of_terminal (e : Event) (h : isTerminalEvent e = true) :
    isTaskEvent e = false := by
  cases e <;> simp_all [isTaskEvent, isTerminalEvent]

/-- A stream made of non-terminal, non-task events followed by one
terminal event satisfies the ordering contract. -/
theorem streamOrdered_of_no_task_events (l : List Event) (e : Event)
    (hterm : isTerminalEvent e = true)
    (hl : ∀ x ∈ l, isTerminalEvent x = false ∧ isTaskEvent x = false) :
    StreamOrdered (l ++ [e]) := by
  refine ⟨⟨e, List.getLast?_concat l, hterm⟩, ?_, ?_⟩
  · intro x hx
    rw [List.dropLast_concat] at hx
    exact (hl x hx).1
  · intro l1 x l2 heq htask
    have hx : x ∈ l ++ [e] := by rw [heq]; simp
    rcases List.mem_append.mp hx with h1 | h1
    · rw [(hl x h1).2] at htask
      cases htask
    · simp only [List.mem_singleton] at h1
      subst h1
      rw [not_taskEvent_of_terminal x hterm] at htask
      cases htask

/-- A stream of the shape `planning, plan, task events, terminal` satisfies
the ordering contract. -/
theorem streamOrdered_plan_run (ps : String) (tp : TaskPlan) (stE : List Event)
    (c : Event) (hterm : isTerminalEvent c = true)
    (hst : ∀ e ∈ stE, isTaskEvent e = true) :
    StreamOrdered (Event.planning ps :: Event.plan tp :: (stE ++ [c])) := by
  have hshape : Event.planning ps :: Event.plan tp :: (stE ++ [c]) =
      (Event.planning ps :: Event.plan tp :: stE) ++ [c] := by simp
  refine ⟨⟨c, ?_, hterm⟩, ?_, ?_⟩
  · rw [hshape]
    exact List.getLast?_concat _
  · intro x hx
    rw [hshape, List.dropLast_concat, List.mem_cons, List.mem_cons] at hx
    rcases hx with rfl | rfl | hx
    · rfl
    · rfl
    · exact not_terminal_of_taskEvent x (hst x hx)
  · intro l1 x l2 heq htask
    cases l1 with
    | nil =>
      rw [List.nil_append] at heq
      injection heq with h1 _
      rw [← h1] at htask
      cases htask
    | cons y l1' =>
      rw [List.cons_append] at heq
      injection heq with h1 h2
      cases l1' with
      | nil =>
        rw [List.nil_append] at h2
        injection h2 with h3 _
        rw [← h3] at htask
        cases htask
      | cons z l1'' =>
        rw [List.cons_append] at h2
        injection h2 with h3 _
        exact ⟨tp, by rw [← h3]; exact List.mem_cons_of_mem y (List.mem_cons_self _ _)⟩

/-- Every event a `process_step` call adds to the state is a task event. -/
theorem process_step_events_task (i : Nat) (st : ExecState) (s : AgentStep) :
    ∀ e ∈ (process_step i st s).events, e ∈ st.events ∨ isTaskEvent e = true := by
  intro e he
  simp only [process_step] at he
  split at he <;>
  · rcases List.mem_append.mp he with h1 | h1
    · exact Or.inl h1
    · right
      simp only [List.mem_cons, List.mem_singleton] at h1
      rcases h1 with rfl | rfl | h1
      · rfl
      · rfl
      · cases h1

/-- Every event the whole trace loop adds is a task event. -/
theorem process_steps_events_task (steps : List AgentStep) (i : Nat) (st : ExecState) :
    ∀ e ∈ (process_steps i st steps).events, e ∈ st.events ∨ isTaskEvent e = true := by
  induction steps generalizing i st with
  | nil => intro e he; exact Or.inl he
  | cons s rest ih =>
    intro e he
    rcases ih (i + 1) (process_step i st s) e he with h1 | h1
    · exact process_step_events_task i st s e h1
    · exact Or.inr h1

/-- Claim C3: in every event sequence the streaming coordinator yields, a
`plan` event precedes every `task_started`, `task_completed` and
`task_failed` event, the final event is `complete` or `error`, and no
`complete`/`error` event occurs before the final position. -/
theorem C3_stream_event_ordering (has_tools has_api_key : Bool) (message : String)
    (available_services : List String) (llmData : Option (List TaskData))
    (single_shot : Except String (String × List ActionResult))
    (agent_run : Except String AgentOutcome) :
    StreamOrdered (process_chat_message_streaming has_tools has_api_key message
      available_services llmData single_shot agent_run) := by
  cases has_tools with
  | false => exact streamOrdered_of_no_task_events [] _ rfl (by simp)
  | true =>
    cases has_api_key with
    | false => exact streamOrdered_of_no_task_events [] _ rfl (by simp)
    | true =>
      simp only [process_chat_message_streaming, Bool.not_true, Bool.false_eq_true,
        if_false]
      split
      · cases single_shot with
        | ok res =>
          exact streamOrdered_of_no_task_events
            [Event.planning "Analyzing your request...",
             Event.planning "Processing with AI agent..."] _ rfl
            (by
              intro x hx
              simp only [List.mem_cons, List.not_mem_nil, or_false] at hx
              rcases hx with rfl | rfl <;> exact ⟨rfl, rfl⟩)
        | error e =>
          exact streamOrdered_of_no_task_events
            [Event.planning "Analyzing your request...",
             Event.planning "Processing with AI agent..."] _ rfl
            (by
              intro x hx
              simp only [List.mem_cons, List.not_mem_nil, or_false] at hx
              rcases hx with rfl | rfl <;> exact ⟨rfl, rfl⟩)
      · cases agent_run with
        | error e =>
          exact streamOrdered_of_no_task_events
            [Event.planning "Analyzing your request...",
             Event.plan (parse_tasks_from_message message available_services llmData)] _ rfl
            (by
              intro x hx
              simp only [List.mem_cons, List.not_mem_nil, or_false] at hx
              rcases hx with rfl | rfl <;> exact ⟨rfl, rfl⟩)
        | ok outcome =>
          apply streamOrdered_plan_run
          · rfl
          · intro e he
            rcases process_steps_events_task outcome.steps 0
              { plan := parse_tasks_from_message message available_services llmData,
                actions_taken := [], completed_tasks := [], events := [] } e he with h1 | h1
            · cases h1
            · exact h1

/-! ## Claim C5 -/

/-- Claim C5: when the parsed `TaskPlan` holds zero tasks (and tools and an
API key are available), the streaming coordinator falls back to single-shot
agent processing of the raw message; the stream is two `planning` events
followed by exactly one final event, which is `complete` when the
single-shot call returns and `error` carrying the exception text only when
that call itself raises — an empty plan never by itself produces a
"no tasks to run" error event. -/
theorem C5_empty_plan_single_shot_fallback (message : String)
    (available_services : List String) (llmData : Option (List TaskData))
    (single_shot : Except String (String × List ActionResult))
    (agent_run : Except String AgentOutcome)
    (h : (parse_tasks_from_message message available_services llmData).tasks = []) :
    ∃ final,
      process_chat_message_streaming true true message available_services llmData
          single_shot agent_run =
        [Event.planning "Analyzing your request...",
         Event.planning "Processing with AI agent...", final] ∧
      (∀ msg acts, single_shot = Except.ok (msg, acts) →
        final = Event.complete msg acts none none none) ∧
      (∀ msg, single_shot = Except.error msg → final = Event.error msg) := by
  have hempty : (parse_tasks_from_message message available_services llmData).tasks.isEmpty
      = true := by rw [h]; rfl
  cases single_shot with
  | ok res =>
    refine ⟨Event.complete res.1 res.2 none none none, ?_, ?_, ?_⟩
    · simp only [process_chat_message_streaming, Bool.not_true, Bool.false_eq_true,
        if_false, hempty]
      rfl
    · intro msg acts hok
      injection hok with h1
      rw [h1]
    · intro msg herr
      cases herr
  | error e =>
    refine ⟨Event.error e, ?_, ?_, ?_⟩
    · simp only [process_chat_message_streaming, Bool.not_true, Bool.false_eq_true,
        if_false, hempty]
      rfl
    · intro msg acts hok
      cases hok
    · intro msg herr
      injection herr with h1
      rw [h1]

/-- Claim C5 (witness): an LLM answer with no extractable task over a
connected slack service, with a successful single-shot run. -/
theorem C5_empty_plan_single_shot_fallback_witness :
    ∃ final,
      process_chat_message_streaming true true "hello" ["slack"] (some [])
          (Except.ok ("hi there", [])) (Except.error "unused") =
        [Event.planning "Analyzing your request...",
         Event.planning "Processing with AI agent...", final] ∧
      (∀ msg acts,
        (Except.ok ("hi there", []) : Except String (String × List ActionResult)) =
          Except.ok (msg, acts) →
        final = Event.complete msg acts none none none) ∧
      (∀ msg,
        (Except.ok ("hi there", []) : Except String (String × List ActionResult)) =
          Except.error msg →
        final = Event.error msg) :=
  C5_empty_plan_single_shot_fallback "hello" ["slack"] (some [])
    (Except.ok ("hi there", [])) (Except.error "unused") rfl
